import Mathlib

/-!
Verification of the Skill-bridge tutoring-marketplace backend.

The relational store is modelled as lists of rows; Prisma queries become
list operations; services become functions `Store → Except HttpError α × Store`
that thread the store explicitly (error paths return the store unchanged,
mirroring the source where every `throw` happens before any write).
JavaScript numbers appearing in pagination input are modelled as `JsNum`
(NaN, ±Infinity, or a finite rational).
-/

namespace SB

/-- The typed error of `src/utils/httpError.ts`: HTTP status, machine code,
human message. -/
structure HttpError where
  statusCode : Nat
  code : String
  message : String
deriving DecidableEq, Repr

namespace httpErrors

/-- `httpErrors.badRequest` with the default code. -/
def badRequest (message : String) : HttpError := ⟨400, "BAD_REQUEST", message⟩

/-- `httpErrors.unauthorized` with the default code. -/
def unauthorized (message : String) : HttpError := ⟨401, "UNAUTHORIZED", message⟩

/-- `httpErrors.forbidden` with the default code. -/
def forbidden (message : String) : HttpError := ⟨403, "FORBIDDEN", message⟩

/-- `httpErrors.notFound` with the default code. -/
def notFound (message : String) : HttpError := ⟨404, "NOT_FOUND", message⟩

/-- `httpErrors.notFound` with an explicit code argument. -/
def notFoundWithCode (message code : String) : HttpError := ⟨404, code, message⟩

/-- `httpErrors.conflict` with the default code. -/
def conflict (message : String) : HttpError := ⟨409, "CONFLICT", message⟩

/-- `httpErrors.conflict` with an explicit code argument. -/
def conflictWithCode (message code : String) : HttpError := ⟨409, code, message⟩

end httpErrors

/-- A JavaScript number as it can reach `normalizePagination`: NaN, an
infinity, or a finite value (modelled as a rational). -/
inductive JsNum
  | nan
  | posInf
  | negInf
  | num (q : Rat)
deriving DecidableEq, Repr

/-- `Number.isFinite`. -/
def JsNum.isFinite : JsNum → Bool
  | .num _ => true
  | _ => false

/-- The `{page?, limit?}` argument of `normalizePagination`. -/
structure PaginationInput where
  page : Option JsNum
  limit : Option JsNum
deriving DecidableEq, Repr

/-- The `{page, limit, skip}` result of `normalizePagination`. -/
structure Pagination where
  page : Int
  limit : Int
  skip : Int
deriving DecidableEq, Repr

/-- `normalizePagination` (identical copies live in the student, tutor and
admin services): `page` defaults to 1 and, when finite, is floored with
minimum 1; `limit` defaults to 20 and, when finite, is floored and clamped
into [1,100]; non-finite raw values fall back to the defaults;
`skip = (page-1)*limit`. -/
def normalizePagination (input : Option PaginationInput) : Pagination :=
  let pageRaw := (input.bind PaginationInput.page).getD (JsNum.num 1)
  let limitRaw := (input.bind PaginationInput.limit).getD (JsNum.num 20)
  let page : Int :=
    match pageRaw with
    | JsNum.num q => max 1 q.floor
    | _ => 1
  let limit : Int :=
    match limitRaw with
    | JsNum.num q => min 100 (max 1 q.floor)
    | _ => 20
  ⟨page, limit, (page - 1) * limit⟩

/-- The `{page, limit, total, totalPages}` record of `toPageMeta`. -/
structure PageMeta where
  page : Int
  limit : Int
  total : Int
  totalPages : Int
deriving DecidableEq, Repr

/-- `toPageMeta`: `totalPages = Math.max(1, Math.ceil(total / limit))`. -/
def toPageMeta (page limit total : Int) : PageMeta :=
  ⟨page, limit, total, max 1 ⌈(total : Rat) / (limit : Rat)⌉⟩

/-- Claim C5 (corrected): at the out-of-range input `limit = 0` the code
clamps the limit up to 1, the bottom of the valid range [1,100], not to the
default 20 — refuting the claim's clause that out-of-range input is clamped
to the defaults. -/
theorem c5_counterexample_limit_zero_not_default :
    (normalizePagination (some ⟨some (JsNum.num 1), some (JsNum.num 0)⟩)).limit = 1 ∧
      (1 : Int) ≠ 20 := by
  constructor
  · rfl
  · decide

/-- Claim C5 (amended): for every input, `normalizePagination` returns
`page ≥ 1`, `limit ∈ [1,100]` and `skip = (page-1)*limit`; `page` defaults
to 1 and `limit` to 20 when the field is absent; a non-finite value falls
back to the default; a finite value is floored and then clamped into the
valid range (page to minimum 1, limit into [1,100]) rather than replaced by
the default. -/
theorem c5_normalizePagination_spec (input : Option PaginationInput) :
    1 ≤ (normalizePagination input).page ∧
    1 ≤ (normalizePagination input).limit ∧
    (normalizePagination input).limit ≤ 100 ∧
    (normalizePagination input).skip =
      ((normalizePagination input).page - 1) * (normalizePagination input).limit ∧
    (input = none → normalizePagination input = ⟨1, 20, 0⟩) ∧
    (∀ i, input = some i → i.page = none → (normalizePagination input).page = 1) ∧
    (∀ i, input = some i → i.limit = none → (normalizePagination input).limit = 20) ∧
    (∀ i n, input = some i → i.page = some n → n.isFinite = false →
      (normalizePagination input).page = 1) ∧
    (∀ i n, input = some i → i.limit = some n → n.isFinite = false →
      (normalizePagination input).limit = 20) ∧
    (∀ i q, input = some i → i.page = some (JsNum.num q) →
      (normalizePagination input).page = max 1 q.floor) ∧
    (∀ i q, input = some i → i.limit = some (JsNum.num q) →
      (normalizePagination input).limit = min 100 (max 1 q.floor)) := by
  have hbounds : 1 ≤ (normalizePagination input).page ∧
      1 ≤ (normalizePagination input).limit ∧ (normalizePagination input).limit ≤ 100 := by
    rcases input with _ | ⟨p, l⟩
    · refine ⟨by decide, by decide, by decide⟩
    · rcases p with _ | pn <;> rcases l with _ | ln
      · refine ⟨by decide, by decide, by decide⟩
      · rcases ln with _ | _ | _ | q <;>
          simp only [normalizePagination, Option.bind, Option.getD] <;> omega
      · rcases pn with _ | _ | _ | q <;>
          simp only [normalizePagination, Option.bind, Option.getD] <;> omega
      · rcases pn with _ | _ | _ | q <;> rcases ln with _ | _ | _ | r <;>
          simp only [normalizePagination, Option.bind, Option.getD] <;> omega
  refine ⟨hbounds.1, hbounds.2.1, hbounds.2.2, rfl, ?_, ?_, ?_, ?_, ?_, ?_, ?_⟩
  · rintro rfl; rfl
  · rintro ⟨p, l⟩ rfl hp
    simp only at hp; subst hp
    rcases l with _ | ln
    · rfl
    · rcases ln with _ | _ | _ | q <;> rfl
  · rintro ⟨p, l⟩ rfl hl
    simp only at hl; subst hl
    rcases p with _ | pn
    · rfl
    · rcases pn with _ | _ | _ | q <;> rfl
  · rintro ⟨p, l⟩ n rfl hp hfin
    simp only at hp; subst hp
    rcases n with _ | _ | _ | q
    all_goals first
      | (rcases l with _ | ln
         · rfl
         · rcases ln with _ | _ | _ | r <;> rfl)
      | (exfalso; simp [JsNum.isFinite] at hfin)
  · rintro ⟨p, l⟩ n rfl hl hfin
    simp only at hl; subst hl
    rcases n with _ | _ | _ | q
    all_goals first
      | (rcases p with _ | pn
         · rfl
         · rcases pn with _ | _ | _ | r <;> rfl)
      | (exfalso; simp [JsNum.isFinite] at hfin)
  · rintro ⟨p, l⟩ q rfl hp
    simp only at hp; subst hp
    rcases l with _ | ln
    · rfl
    · rcases ln with _ | _ | _ | r <;> rfl
  · rintro ⟨p, l⟩ q rfl hl
    simp only at hl; subst hl
    rcases p with _ | pn
    · rfl
    · rcases pn with _ | _ | _ | r <;> rfl

/-- Witness for C5: at the concrete input `{page := 0.5, limit := NaN}` the
spec instantiates: page is clamped to 1 and the NaN limit falls back to 20. -/
theorem c5_witness :
    (normalizePagination (some ⟨some (JsNum.num (1/2)), some JsNum.nan⟩)).page = 1 ∧
      (normalizePagination (some ⟨some (JsNum.num (1/2)), some JsNum.nan⟩)).limit = 20 := by
  have h := c5_normalizePagination_spec (some ⟨some (JsNum.num (1/2)), some JsNum.nan⟩)
  refine ⟨?_, h.2.2.2.2.2.2.2.2.1 _ JsNum.nan rfl rfl rfl⟩
  have hp := h.2.2.2.2.2.2.2.2.2.1 _ (1/2) rfl rfl
  have h0 : ((1 : Rat)/2).floor = 0 := by norm_num [Rat.floor_def']
  rw [hp, h0]
  omega

/-- `UserRole` of `src/lib/constants.ts`. -/
inductive UserRole
  | STUDENT
  | TUTOR
  | ADMIN
deriving DecidableEq, Repr

/-- `UserStatus` of `src/lib/constants.ts`. -/
inductive UserStatus
  | ACTIVE
  | INACTIVE
  | SUSPENDED
deriving DecidableEq, Repr

/-- `Group` enum of the Prisma schema. -/
inductive Group
  | NONE
  | SCIENCE
  | HUMANITIES
  | BUSINESS_STUDIES
deriving DecidableEq, Repr

/-- `BookingStatus` enum of the Prisma schema. -/
inductive BookingStatus
  | CONFIRMED
  | COMPLETED
  | CANCELLED
deriving DecidableEq, Repr

/-- A `User` row. -/
structure User where
  id : String
  name : String
  email : String
  emailVerified : Bool
  role : UserRole
  status : UserStatus
deriving DecidableEq, Repr

/-- A `Student` row (`class` is a Lean keyword, embedded as `class_`). -/
structure Student where
  studentId : String
  userId : String
  class_ : String
  institute : String
  address : String
  phone : String
  profilePic : Option String
  bio : Option String
  group : Group
deriving DecidableEq, Repr

/-- A `Tutor` row; timestamps are modelled as integers. -/
structure Tutor where
  tutorId : String
  userId : String
  subject : String
  experience : Int
  address : String
  phone : String
  profilePic : Option String
  bio : Option String
  institute : Option String
  group : Group
  categoryId : String
  pricePerDay : Rat
  isFeatured : Bool
  isAvailable : Bool
  availableFrom : Option Int
  availableTo : Option Int
  createdAt : Int
deriving DecidableEq, Repr

/-- A `Category` row. -/
structure Category where
  categoryId : String
  name : String
  subjects : List String
deriving DecidableEq, Repr

/-- A `Booking` row. -/
structure Booking where
  bookingId : String
  studentId : String
  tutorId : String
  date : Int
  time : Int
  duration : Rat
  status : BookingStatus
  notes : Option String
deriving DecidableEq, Repr

/-- A `Review` row. -/
structure Review where
  reviewId : String
  bookingId : String
  studentId : String
  tutorId : String
  rating : Int
  comment : Option String
  createdAt : Int
deriving DecidableEq, Repr

/-- The relational store: one list of rows per table. -/
structure Store where
  users : List User
  students : List Student
  tutors : List Tutor
  categories : List Category
  bookings : List Booking
  reviews : List Review
deriving DecidableEq, Repr

/-- `prisma.student.findUnique({ where: { userId } })`. -/
def findStudentByUserId (s : Store) (userId : String) : Option Student :=
  s.students.find? (fun st => st.userId == userId)

/-- `prisma.tutor.findUnique({ where: { userId } })`. -/
def findTutorByUserId (s : Store) (userId : String) : Option Tutor :=
  s.tutors.find? (fun t => t.userId == userId)

/-- `prisma.tutor.findUnique({ where: { tutorId } })`. -/
def findTutorById (s : Store) (tutorId : String) : Option Tutor :=
  s.tutors.find? (fun t => t.tutorId == tutorId)

/-- `prisma.category.findUnique({ where: { categoryId } })`. -/
def findCategoryById (s : Store) (categoryId : String) : Option Category :=
  s.categories.find? (fun c => c.categoryId == categoryId)

/-- `prisma.user.findUnique({ where: { id } })`. -/
def findUserById (s : Store) (id : String) : Option User :=
  s.users.find? (fun u => u.id == id)

/-- The identity resolved from an external session (`AuthenticatedUser`
in `middlewares/auth.ts`). -/
structure SessionUser where
  id : String
  name : String
  email : String
  emailVerified : Bool
  role : UserRole
  status : UserStatus
deriving DecidableEq, Repr

/-- Session metadata attached alongside the user. -/
structure SessionInfo where
  id : String
  userId : String
  expiresAt : Int
deriving DecidableEq, Repr

/-- Outcome of the authorization middleware: a JSON rejection with an HTTP
status and machine code, or `next()` with the resolved user attached. -/
inductive GateResult
  | reject (status : Nat) (code : String)
  | proceed (user : SessionUser)
deriving DecidableEq, Repr

/-- `checkUserStatus` of `middlewares/auth.ts`: SUSPENDED → 403
ACCOUNT_SUSPENDED, INACTIVE → 403 ACCOUNT_INACTIVE, otherwise no error. -/
def checkUserStatus (user : SessionUser) : Option (Nat × String) :=
  if user.status = UserStatus.SUSPENDED then some (403, "ACCOUNT_SUSPENDED")
  else if user.status = UserStatus.INACTIVE then some (403, "ACCOUNT_INACTIVE")
  else none

/-- `requireAuth`: resolve the session (none → 401 UNAUTHORIZED), check the
account status, then attach the user and continue. -/
def requireAuth (session : Option (SessionUser × SessionInfo)) : GateResult :=
  match session with
  | none => GateResult.reject 401 "UNAUTHORIZED"
  | some (user, _) =>
    match checkUserStatus user with
    | some (status, code) => GateResult.reject status code
    | none => GateResult.proceed user

/-- `requireRole(...allowedRoles)`: if no user is attached yet, resolve the
session itself (none → 401); re-check the account status; reject 403
FORBIDDEN when the role is not in the allowed set, else continue. -/
def requireRole (allowedRoles : List UserRole) (attachedUser : Option SessionUser)
    (session : Option (SessionUser × SessionInfo)) : GateResult :=
  let resolved : Option SessionUser :=
    match attachedUser with
    | some u => some u
    | none => session.map Prod.fst
  match resolved with
  | none => GateResult.reject 401 "UNAUTHORIZED"
  | some user =>
    match checkUserStatus user with
    | some (status, code) => GateResult.reject status code
    | none =>
      if allowedRoles.contains user.role then GateResult.proceed user
      else GateResult.reject 403 "FORBIDDEN"

/-- The middleware chain used by every protected route:
`requireAuth` followed by `requireRole(roles)`. -/
def gate (session : Option (SessionUser × SessionInfo)) (roles : List UserRole) : GateResult :=
  match requireAuth session with
  | GateResult.reject status code => GateResult.reject status code
  | GateResult.proceed user => requireRole roles (some user) session

/-- Claim C4: through the authorization gate, no session → 401; a SUSPENDED
user → 403 ACCOUNT_SUSPENDED; an INACTIVE user → 403 ACCOUNT_INACTIVE; an
ACTIVE user whose role is outside the route's required role set → 403
FORBIDDEN; only an ACTIVE user with an allowed role proceeds to business
logic. -/
theorem c4_authorization_gate (session : Option (SessionUser × SessionInfo))
    (roles : List UserRole) :
    (session = none → gate session roles = GateResult.reject 401 "UNAUTHORIZED") ∧
    (∀ u si, session = some (u, si) → u.status = UserStatus.SUSPENDED →
      gate session roles = GateResult.reject 403 "ACCOUNT_SUSPENDED") ∧
    (∀ u si, session = some (u, si) → u.status = UserStatus.INACTIVE →
      gate session roles = GateResult.reject 403 "ACCOUNT_INACTIVE") ∧
    (∀ u si, session = some (u, si) → u.status = UserStatus.ACTIVE → u.role ∉ roles →
      gate session roles = GateResult.reject 403 "FORBIDDEN") ∧
    (∀ u si, session = some (u, si) → u.status = UserStatus.ACTIVE → u.role ∈ roles →
      gate session roles = GateResult.proceed u) := by
  refine ⟨?_, ?_, ?_, ?_, ?_⟩
  · rintro rfl; rfl
  · rintro u si rfl hs
    simp [gate, requireAuth, requireRole, checkUserStatus, hs]
  · rintro u si rfl hs
    simp [gate, requireAuth, requireRole, checkUserStatus, hs]
  · rintro u si rfl hs hrole
    have hc : roles.contains u.role = false := by simpa using hrole
    simp [gate, requireAuth, requireRole, checkUserStatus, hs, hc]
    exact hrole
  · rintro u si rfl hs hrole
    have hc : roles.contains u.role = true := by simpa using hrole
    simp [gate, requireAuth, requireRole, checkUserStatus, hs, hc]
    exact hrole

/-- Witness for C4: a concrete ACTIVE tutor calling a STUDENT-only route is
rejected 403 FORBIDDEN, and the same user on a TUTOR route proceeds. -/
theorem c4_witness :
    gate (some (⟨"u2", "Tina", "t@x.io", true, UserRole.TUTOR, UserStatus.ACTIVE⟩,
        ⟨"s1", "u2", 0⟩)) [UserRole.STUDENT] = GateResult.reject 403 "FORBIDDEN" ∧
    gate (some (⟨"u2", "Tina", "t@x.io", true, UserRole.TUTOR, UserStatus.ACTIVE⟩,
        ⟨"s1", "u2", 0⟩)) [UserRole.TUTOR] =
      GateResult.proceed ⟨"u2", "Tina", "t@x.io", true, UserRole.TUTOR, UserStatus.ACTIVE⟩ := by
  constructor
  · exact (c4_authorization_gate _ [UserRole.STUDENT]).2.2.2.1 _ _ rfl rfl (by decide)
  · exact (c4_authorization_gate _ [UserRole.TUTOR]).2.2.2.2 _ _ rfl rfl (by decide)

/-- The `CreateBookingInput` of the student service. -/
structure CreateBookingInput where
  tutorId : String
  date : Int
  time : Int
  duration : Rat
  notes : Option String
deriving DecidableEq, Repr

/-- `createMyBooking` of `student.service.ts`: requires the caller's Student
profile (else 404) and an existing (404) available (409) tutor; on success
creates a booking with status CONFIRMED. `newId` stands for the
server-generated booking id. -/
def createMyBooking (s : Store) (userId : String) (input : CreateBookingInput)
    (newId : String) : Except HttpError Booking × Store :=
  match findStudentByUserId s userId with
  | none =>
    (Except.error (httpErrors.notFound "Student profile not found. Create your profile first."), s)
  | some student =>
    match findTutorById s input.tutorId with
    | none => (Except.error (httpErrors.notFound "Tutor not found."), s)
    | some tutor =>
      if tutor.isAvailable = false then
        (Except.error (httpErrors.conflict "Tutor is not available for booking."), s)
      else
        let booking : Booking :=
          ⟨newId, student.studentId, input.tutorId, input.date, input.time,
            input.duration, BookingStatus.CONFIRMED, input.notes⟩
        (Except.ok booking, { s with bookings := s.bookings ++ [booking] })

/-- Claim C3: createMyBooking fails 404 when the caller has no Student
profile or the tutor does not exist, fails 409 with message "Tutor is not
available for booking." when the tutor exists but is unavailable, creates
no Booking row in any failure case, and on success creates a booking whose
initial status is CONFIRMED. -/
theorem c3_createMyBooking (s : Store) (userId : String) (input : CreateBookingInput)
    (newId : String) :
    (findStudentByUserId s userId = none →
      (createMyBooking s userId input newId).1 =
        Except.error ⟨404, "NOT_FOUND", "Student profile not found. Create your profile first."⟩ ∧
      (createMyBooking s userId input newId).2 = s) ∧
    (∀ st, findStudentByUserId s userId = some st → findTutorById s input.tutorId = none →
      (createMyBooking s userId input newId).1 =
        Except.error ⟨404, "NOT_FOUND", "Tutor not found."⟩ ∧
      (createMyBooking s userId input newId).2 = s) ∧
    (∀ st t, findStudentByUserId s userId = some st → findTutorById s input.tutorId = some t →
      t.isAvailable = false →
      (createMyBooking s userId input newId).1 =
        Except.error ⟨409, "CONFLICT", "Tutor is not available for booking."⟩ ∧
      (createMyBooking s userId input newId).2 = s) ∧
    (∀ st t, findStudentByUserId s userId = some st → findTutorById s input.tutorId = some t →
      t.isAvailable = true →
      ∃ b, (createMyBooking s userId input newId).1 = Except.ok b ∧
        b.status = BookingStatus.CONFIRMED ∧
        (createMyBooking s userId input newId).2.bookings = s.bookings ++ [b]) ∧
    (∀ e, (createMyBooking s userId input newId).1 = Except.error e →
      (createMyBooking s userId input newId).2 = s) := by
  refine ⟨?_, ?_, ?_, ?_, ?_⟩
  · intro h
    simp [createMyBooking, h, httpErrors.notFound]
  · intro st hst htut
    simp [createMyBooking, hst, htut, httpErrors.notFound]
  · intro st t hst htut hav
    simp [createMyBooking, hst, htut, hav, httpErrors.conflict]
  · intro st t hst htut hav
    refine ⟨⟨newId, st.studentId, input.tutorId, input.date, input.time,
      input.duration, BookingStatus.CONFIRMED, input.notes⟩, ?_, rfl, ?_⟩
    · simp [createMyBooking, hst, htut, hav]
    · simp [createMyBooking, hst, htut, hav]
  · intro e he
    cases hst : findStudentByUserId s userId with
    | none => simp [createMyBooking, hst]
    | some st =>
      cases htut : findTutorById s input.tutorId with
      | none => simp [createMyBooking, hst, htut]
      | some t =>
        by_cases hav : t.isAvailable = false
        · simp [createMyBooking, hst, htut, hav]
        · exfalso
          simp [createMyBooking, hst, htut, hav] at he

/-- A one-student one-tutor store used to instantiate the service theorems. -/
def demoStore : Store :=
  { users :=
      [⟨"u1", "Sami", "s@x.io", true, UserRole.STUDENT, UserStatus.ACTIVE⟩,
       ⟨"u2", "Tina", "t@x.io", true, UserRole.TUTOR, UserStatus.ACTIVE⟩],
    students := [⟨"st1", "u1", "10", "ABC", "X", "017", none, none, Group.NONE⟩],
    tutors :=
      [⟨"tu1", "u2", "Math", 2, "Y", "018", none, none, none, Group.SCIENCE,
        "c1", 500, false, false, none, none, 0⟩],
    categories := [⟨"c1", "Science", ["Math"]⟩],
    bookings := [],
    reviews := [] }

/-- Witness for C3: in `demoStore` the tutor has `isAvailable = false`, so a
booking attempt yields the 409 conflict "Tutor is not available for
booking." and the store (hence the bookings table) is unchanged. -/
theorem c3_witness :
    (createMyBooking demoStore "u1" ⟨"tu1", 10, 10, 1, none⟩ "b1").1 =
      Except.error ⟨409, "CONFLICT", "Tutor is not available for booking."⟩ ∧
    (createMyBooking demoStore "u1" ⟨"tu1", 10, 10, 1, none⟩ "b1").2 = demoStore := by
  exact (c3_createMyBooking demoStore "u1" ⟨"tu1", 10, 10, 1, none⟩ "b1").2.2.1
    ⟨"st1", "u1", "10", "ABC", "X", "017", none, none, Group.NONE⟩
    ⟨"tu1", "u2", "Math", 2, "Y", "018", none, none, none, Group.SCIENCE,
      "c1", 500, false, false, none, none, 0⟩
    (by decide) (by decide) (by decide)

/-- `prisma.booking.findFirst({ where: { bookingId, studentId } })`. -/
def findBookingForStudent (s : Store) (bookingId studentId : String) : Option Booking :=
  s.bookings.find? (fun b => b.bookingId == bookingId && b.studentId == studentId)

/-- `prisma.booking.findFirst({ where: { bookingId, tutorId } })`. -/
def findBookingForTutor (s : Store) (bookingId tutorId : String) : Option Booking :=
  s.bookings.find? (fun b => b.bookingId == bookingId && b.tutorId == tutorId)

/-- `prisma.booking.update({ where: { bookingId }, data: { status } })`. -/
def updateBookingStatus (s : Store) (bookingId : String) (status : BookingStatus) : Store :=
  { s with bookings := s.bookings.map fun b =>
      if b.bookingId == bookingId then { b with status := status } else b }

/-- `cancelMyBooking` of `student.service.ts`: student-owned booking,
CONFIRMED → CANCELLED, otherwise 409. -/
def cancelMyBooking (s : Store) (userId bookingId : String) :
    Except HttpError Booking × Store :=
  match findStudentByUserId s userId with
  | none =>
    (Except.error (httpErrors.notFound "Student profile not found. Create your profile first."), s)
  | some student =>
    match findBookingForStudent s bookingId student.studentId with
    | none => (Except.error (httpErrors.notFound "Booking not found."), s)
    | some booking =>
      if booking.status ≠ BookingStatus.CONFIRMED then
        (Except.error (httpErrors.conflict "Only confirmed bookings can be cancelled."), s)
      else
        (Except.ok { booking with status := BookingStatus.CANCELLED },
          updateBookingStatus s bookingId BookingStatus.CANCELLED)

/-- `markSessionCompleted` of `tutor.service.ts`: tutor-owned booking,
CONFIRMED → COMPLETED, otherwise 409. -/
def markSessionCompleted (s : Store) (userId bookingId : String) :
    Except HttpError Booking × Store :=
  match findTutorByUserId s userId with
  | none =>
    (Except.error (httpErrors.notFound "Tutor profile not found. Create your profile first."), s)
  | some tutor =>
    match findBookingForTutor s bookingId tutor.tutorId with
    | none => (Except.error (httpErrors.notFound "Booking not found."), s)
    | some booking =>
      if booking.status ≠ BookingStatus.CONFIRMED then
        (Except.error (httpErrors.conflict "Only confirmed sessions can be marked completed."), s)
      else
        (Except.ok { booking with status := BookingStatus.COMPLETED },
          updateBookingStatus s bookingId BookingStatus.COMPLETED)

/-- The primary-key invariant of the bookings table. -/
def bookingIdUnique (s : Store) : Prop :=
  ∀ x1 ∈ s.bookings, ∀ x2 ∈ s.bookings, x1.bookingId = x2.bookingId → x1 = x2

/-- A row whose id differs from the updated one is untouched by
`updateBookingStatus`. -/
theorem mem_updateBookingStatus_of_ne (s : Store) (bid : String) (st' : BookingStatus)
    (x : Booking) (hx : x ∈ s.bookings) (hne : ¬ x.bookingId = bid) :
    x ∈ (updateBookingStatus s bid st').bookings := by
  simp only [updateBookingStatus]
  have hfix : (fun b => if b.bookingId == bid then { b with status := st' } else b) x = x := by
    simp [hne]
  exact hfix ▸ List.mem_map_of_mem _ hx

/-- Every row after `updateBookingStatus` is the image of a pre-state row. -/
theorem mem_updateBookingStatus_elim (s : Store) (bid : String) (st' : BookingStatus)
    (x' : Booking) (hx' : x' ∈ (updateBookingStatus s bid st').bookings) :
    ∃ x, x ∈ s.bookings ∧
      x' = if x.bookingId == bid then { x with status := st' } else x := by
  simp only [updateBookingStatus] at hx'
  obtain ⟨x, hx, hfx⟩ := List.mem_map.mp hx'
  exact ⟨x, hx, hfx.symm⟩

/-- Claim C1: the only status transitions performed are CONFIRMED →
COMPLETED (markSessionCompleted) and CONFIRMED → CANCELLED (cancelMyBooking);
invoking either operation on an owned booking whose status is not CONFIRMED
yields a 409 conflict and leaves the store, hence every booking status,
unchanged. -/
theorem c1_booking_status_transitions (s : Store) (userId bookingId : String)
    (huniq : bookingIdUnique s) :
    (∀ st b, findStudentByUserId s userId = some st →
      findBookingForStudent s bookingId st.studentId = some b →
      (b.status ≠ BookingStatus.CONFIRMED →
        (cancelMyBooking s userId bookingId).1 =
          Except.error ⟨409, "CONFLICT", "Only confirmed bookings can be cancelled."⟩ ∧
        (cancelMyBooking s userId bookingId).2 = s) ∧
      (b.status = BookingStatus.CONFIRMED →
        (cancelMyBooking s userId bookingId).1 =
          Except.ok { b with status := BookingStatus.CANCELLED } ∧
        (∀ x ∈ s.bookings, x.bookingId ≠ bookingId →
          x ∈ (cancelMyBooking s userId bookingId).2.bookings) ∧
        (∀ x' ∈ (cancelMyBooking s userId bookingId).2.bookings,
          x' ∈ s.bookings ∨
            (b ∈ s.bookings ∧ b.status = BookingStatus.CONFIRMED ∧
              x' = { b with status := BookingStatus.CANCELLED })))) ∧
    (∀ t b, findTutorByUserId s userId = some t →
      findBookingForTutor s bookingId t.tutorId = some b →
      (b.status ≠ BookingStatus.CONFIRMED →
        (markSessionCompleted s userId bookingId).1 =
          Except.error ⟨409, "CONFLICT", "Only confirmed sessions can be marked completed."⟩ ∧
        (markSessionCompleted s userId bookingId).2 = s) ∧
      (b.status = BookingStatus.CONFIRMED →
        (markSessionCompleted s userId bookingId).1 =
          Except.ok { b with status := BookingStatus.COMPLETED } ∧
        (∀ x ∈ s.bookings, x.bookingId ≠ bookingId →
          x ∈ (markSessionCompleted s userId bookingId).2.bookings) ∧
        (∀ x' ∈ (markSessionCompleted s userId bookingId).2.bookings,
          x' ∈ s.bookings ∨
            (b ∈ s.bookings ∧ b.status = BookingStatus.CONFIRMED ∧
              x' = { b with status := BookingStatus.COMPLETED })))) := by
  constructor
  · intro st b hst hfind
    have hfind' : s.bookings.find?
        (fun x => x.bookingId == bookingId && x.studentId == st.studentId) = some b := hfind
    have hb_mem : b ∈ s.bookings := List.mem_of_find?_eq_some hfind'
    have hb_pred := List.find?_some hfind'
    have hb_id : b.bookingId = bookingId := by
      have := (Bool.and_eq_true _ _).mp hb_pred
      exact beq_iff_eq.mp this.1
    constructor
    · intro hstatus
      constructor
      · simp [cancelMyBooking, hst, hfind, hstatus, httpErrors.conflict]
      · simp [cancelMyBooking, hst, hfind, hstatus]
    · intro hstatus
      refine ⟨?_, ?_, ?_⟩
      · simp [cancelMyBooking, hst, hfind, hstatus]
      · intro x hx hne
        have h2 : (cancelMyBooking s userId bookingId).2 =
            updateBookingStatus s bookingId BookingStatus.CANCELLED := by
          simp [cancelMyBooking, hst, hfind, hstatus]
        rw [h2]
        exact mem_updateBookingStatus_of_ne s bookingId BookingStatus.CANCELLED x hx hne
      · intro x' hx'
        have h2 : (cancelMyBooking s userId bookingId).2 =
            updateBookingStatus s bookingId BookingStatus.CANCELLED := by
          simp [cancelMyBooking, hst, hfind, hstatus]
        rw [h2] at hx'
        obtain ⟨x, hx, hfx⟩ :=
          mem_updateBookingStatus_elim s bookingId BookingStatus.CANCELLED x' hx'
        by_cases hid : x.bookingId = bookingId
        · right
          have hxb : x = b := huniq x hx b hb_mem (hid.trans hb_id.symm)
          subst hxb
          simp only [hid, beq_self_eq_true, if_pos] at hfx
          simp [hfx, hb_mem, hstatus, hid]
        · left
          simp only [beq_eq_false_iff_ne, ne_eq] at hid
          rw [if_neg (by simp [hid])] at hfx
          exact hfx ▸ hx
  · intro t b hst hfind
    have hfind' : s.bookings.find?
        (fun x => x.bookingId == bookingId && x.tutorId == t.tutorId) = some b := hfind
    have hb_mem : b ∈ s.bookings := List.mem_of_find?_eq_some hfind'
    have hb_pred := List.find?_some hfind'
    have hb_id : b.bookingId = bookingId := by
      have := (Bool.and_eq_true _ _).mp hb_pred
      exact beq_iff_eq.mp this.1
    constructor
    · intro hstatus
      constructor
      · simp [markSessionCompleted, hst, hfind, hstatus, httpErrors.conflict]
      · simp [markSessionCompleted, hst, hfind, hstatus]
    · intro hstatus
      refine ⟨?_, ?_, ?_⟩
      · simp [markSessionCompleted, hst, hfind, hstatus]
      · intro x hx hne
        have h2 : (markSessionCompleted s userId bookingId).2 =
            updateBookingStatus s bookingId BookingStatus.COMPLETED := by
          simp [markSessionCompleted, hst, hfind, hstatus]
        rw [h2]
        exact mem_updateBookingStatus_of_ne s bookingId BookingStatus.COMPLETED x hx hne
      · intro x' hx'
        have h2 : (markSessionCompleted s userId bookingId).2 =
            updateBookingStatus s bookingId BookingStatus.COMPLETED := by
          simp [markSessionCompleted, hst, hfind, hstatus]
        rw [h2] at hx'
        obtain ⟨x, hx, hfx⟩ :=
          mem_updateBookingStatus_elim s bookingId BookingStatus.COMPLETED x' hx'
        by_cases hid : x.bookingId = bookingId
        · right
          have hxb : x = b := huniq x hx b hb_mem (hid.trans hb_id.symm)
          subst hxb
          simp only [hid, beq_self_eq_true, if_pos] at hfx
          simp [hfx, hb_mem, hstatus, hid]
        · left
          simp only [beq_eq_false_iff_ne, ne_eq] at hid
          rw [if_neg (by simp [hid])] at hfx
          exact hfx ▸ hx

/-- A store with one COMPLETED and one CONFIRMED booking between the demo
student and tutor. -/
def demoStore2 : Store :=
  { users :=
      [⟨"u1", "Sami", "s@x.io", true, UserRole.STUDENT, UserStatus.ACTIVE⟩,
       ⟨"u2", "Tina", "t@x.io", true, UserRole.TUTOR, UserStatus.ACTIVE⟩],
    students := [⟨"st1", "u1", "10", "ABC", "X", "017", none, none, Group.NONE⟩],
    tutors :=
      [⟨"tu1", "u2", "Math", 2, "Y", "018", none, none, none, Group.SCIENCE,
        "c1", 500, false, true, none, none, 0⟩],
    categories := [⟨"c1", "Science", ["Math"]⟩],
    bookings :=
      [⟨"b1", "st1", "tu1", 10, 10, 1, BookingStatus.COMPLETED, none⟩,
       ⟨"b2", "st1", "tu1", 11, 11, 1, BookingStatus.CONFIRMED, none⟩],
    reviews := [] }

/-- Witness for C1: cancelling the COMPLETED booking `b1` yields the 409
conflict and leaves the store unchanged, while marking the CONFIRMED
booking `b2` completed succeeds with the CONFIRMED → COMPLETED transition. -/
theorem c1_witness :
    ((cancelMyBooking demoStore2 "u1" "b1").1 =
        Except.error ⟨409, "CONFLICT", "Only confirmed bookings can be cancelled."⟩ ∧
      (cancelMyBooking demoStore2 "u1" "b1").2 = demoStore2) ∧
    (markSessionCompleted demoStore2 "u2" "b2").1 =
      Except.ok ⟨"b2", "st1", "tu1", 11, 11, 1, BookingStatus.COMPLETED, none⟩ := by
  constructor
  · exact ((c1_booking_status_transitions demoStore2 "u1" "b1" (by unfold bookingIdUnique; decide)).1
      ⟨"st1", "u1", "10", "ABC", "X", "017", none, none, Group.NONE⟩
      ⟨"b1", "st1", "tu1", 10, 10, 1, BookingStatus.COMPLETED, none⟩
      (by decide) (by decide)).1 (by decide)
  · exact (((c1_booking_status_transitions demoStore2 "u2" "b2" (by unfold bookingIdUnique; decide)).2
      ⟨"tu1", "u2", "Math", 2, "Y", "018", none, none, none, Group.SCIENCE,
        "c1", 500, false, true, none, none, 0⟩
      ⟨"b2", "st1", "tu1", 11, 11, 1, BookingStatus.CONFIRMED, none⟩
      (by decide) (by decide)).2 (by decide)).1

/-- The `CreateReviewInput` of the student service. -/
structure CreateReviewInput where
  bookingId : String
  rating : Int
  comment : Option String
deriving DecidableEq, Repr

/-- The `include: { review: true }` relation lookup: the review attached to
a booking via its unique foreign key. -/
def findReviewByBookingId (s : Store) (bookingId : String) : Option Review :=
  s.reviews.find? (fun r => r.bookingId == bookingId)

/-- `createMyReview` of `student.service.ts`: requires the caller's Student
profile, an owned booking (404 otherwise), status COMPLETED (409 otherwise)
and no existing review for the booking (409 otherwise); then inserts the
review. `newId`/`now` stand for the generated id and timestamp. -/
def createMyReview (s : Store) (userId : String) (input : CreateReviewInput)
    (newId : String) (now : Int) : Except HttpError Review × Store :=
  match findStudentByUserId s userId with
  | none =>
    (Except.error (httpErrors.notFound "Student profile not found. Create your profile first."), s)
  | some student =>
    match findBookingForStudent s input.bookingId student.studentId with
    | none => (Except.error (httpErrors.notFound "Booking not found."), s)
    | some booking =>
      if booking.status ≠ BookingStatus.COMPLETED then
        (Except.error (httpErrors.conflict "You can only review a completed session."), s)
      else
        match findReviewByBookingId s booking.bookingId with
        | some _ =>
          (Except.error (httpErrors.conflict "Review already exists for this booking."), s)
        | none =>
          let review : Review :=
            ⟨newId, booking.bookingId, booking.studentId, booking.tutorId,
              input.rating, input.comment, now⟩
          (Except.ok review, { s with reviews := s.reviews ++ [review] })

/-- Claim C2: createMyReview succeeds only when the booking belongs to the
calling student, its status is COMPLETED and no review exists for it; a
CONFIRMED or CANCELLED booking yields 409, a second attempt on the same
booking yields 409, and a successful creation leaves exactly one review
attached to the booking. -/
theorem c2_createMyReview (s : Store) (userId : String) (input : CreateReviewInput)
    (newId : String) (now : Int) :
    (∀ r, (createMyReview s userId input newId now).1 = Except.ok r →
      ∃ st b, findStudentByUserId s userId = some st ∧
        findBookingForStudent s input.bookingId st.studentId = some b ∧
        b.status = BookingStatus.COMPLETED ∧
        findReviewByBookingId s b.bookingId = none) ∧
    (∀ st b, findStudentByUserId s userId = some st →
      findBookingForStudent s input.bookingId st.studentId = some b →
      (b.status = BookingStatus.CONFIRMED ∨ b.status = BookingStatus.CANCELLED) →
      (createMyReview s userId input newId now).1 =
        Except.error ⟨409, "CONFLICT", "You can only review a completed session."⟩ ∧
      (createMyReview s userId input newId now).2 = s) ∧
    (∀ st b r0, findStudentByUserId s userId = some st →
      findBookingForStudent s input.bookingId st.studentId = some b →
      b.status = BookingStatus.COMPLETED →
      findReviewByBookingId s b.bookingId = some r0 →
      (createMyReview s userId input newId now).1 =
        Except.error ⟨409, "CONFLICT", "Review already exists for this booking."⟩ ∧
      (createMyReview s userId input newId now).2 = s) ∧
    (∀ st b, findStudentByUserId s userId = some st →
      findBookingForStudent s input.bookingId st.studentId = some b →
      b.status = BookingStatus.COMPLETED →
      findReviewByBookingId s b.bookingId = none →
      ∃ r, (createMyReview s userId input newId now).1 = Except.ok r ∧
        r.bookingId = b.bookingId ∧
        (createMyReview s userId input newId now).2.reviews = s.reviews ++ [r] ∧
        ((createMyReview s userId input newId now).2.reviews.filter
          (fun x => x.bookingId == b.bookingId)).length = 1) := by
  refine ⟨?_, ?_, ?_, ?_⟩
  · intro r hr
    cases hst : findStudentByUserId s userId with
    | none => simp [createMyReview, hst] at hr
    | some st =>
      cases hb : findBookingForStudent s input.bookingId st.studentId with
      | none => simp [createMyReview, hst, hb] at hr
      | some b =>
        by_cases hstat : b.status = BookingStatus.COMPLETED
        · cases hrev : findReviewByBookingId s b.bookingId with
          | some r0 => simp [createMyReview, hst, hb, hstat, hrev] at hr
          | none => exact ⟨st, b, rfl, hb, hstat, hrev⟩
        · simp [createMyReview, hst, hb, hstat] at hr
  · intro st b hst hb hstat
    rcases hstat with h | h <;>
      constructor <;> simp [createMyReview, hst, hb, h, httpErrors.conflict]
  · intro st b r0 hst hb hstat hrev
    constructor <;> simp [createMyReview, hst, hb, hstat, hrev, httpErrors.conflict]
  · intro st b hst hb hstat hrev
    refine ⟨⟨newId, b.bookingId, b.studentId, b.tutorId, input.rating, input.comment, now⟩,
      ?_, rfl, ?_, ?_⟩
    · simp [createMyReview, hst, hb, hstat, hrev]
    · simp [createMyReview, hst, hb, hstat, hrev]
    · have h2 : (createMyReview s userId input newId now).2.reviews =
          s.reviews ++ [⟨newId, b.bookingId, b.studentId, b.tutorId,
            input.rating, input.comment, now⟩] := by
        simp [createMyReview, hst, hb, hstat, hrev]
      rw [h2, List.filter_append]
      have hnil : s.reviews.filter (fun x => x.bookingId == b.bookingId) = [] := by
        rw [List.filter_eq_nil_iff]
        intro a ha
        have := List.find?_eq_none.mp hrev a ha
        simpa using this
      rw [hnil]
      simp

/-- `demoStore2` with a review already attached to the COMPLETED booking
`b1`. -/
def demoStore3 : Store :=
  { demoStore2 with reviews := [⟨"r0", "b1", "st1", "tu1", 5, none, 15⟩] }

/-- Witness for C2: reviewing the CONFIRMED booking `b2` yields the 409
"completed session" conflict, and a second review attempt against `b1`,
which already carries review `r0`, yields the 409 duplicate conflict. -/
theorem c2_witness :
    (createMyReview demoStore2 "u1" ⟨"b2", 5, none⟩ "r1" 20).1 =
      Except.error ⟨409, "CONFLICT", "You can only review a completed session."⟩ ∧
    (createMyReview demoStore3 "u1" ⟨"b1", 4, none⟩ "r1" 20).1 =
      Except.error ⟨409, "CONFLICT", "Review already exists for this booking."⟩ := by
  constructor
  · exact ((c2_createMyReview demoStore2 "u1" ⟨"b2", 5, none⟩ "r1" 20).2.1
      ⟨"st1", "u1", "10", "ABC", "X", "017", none, none, Group.NONE⟩
      ⟨"b2", "st1", "tu1", 11, 11, 1, BookingStatus.CONFIRMED, none⟩
      (by decide) (by decide) (Or.inl (by decide))).1
  · exact ((c2_createMyReview demoStore3 "u1" ⟨"b1", 4, none⟩ "r1" 20).2.2.1
      ⟨"st1", "u1", "10", "ABC", "X", "017", none, none, Group.NONE⟩
      ⟨"b1", "st1", "tu1", 10, 10, 1, BookingStatus.COMPLETED, none⟩
      ⟨"r0", "b1", "st1", "tu1", 5, none, 15⟩
      (by decide) (by decide) (by decide) (by decide)).1

/-- `deleteCategory` of `admin.service.ts`: refuses (409 CATEGORY_IN_USE)
while any tutor references the category, else deletes the row. A delete of
a nonexistent row makes Prisma throw a non-HttpError, which the controller
maps to a 500 INTERNAL_SERVER_ERROR envelope; that branch is modelled by
the 500 error value. -/
def deleteCategory (s : Store) (categoryId : String) : Except HttpError Category × Store :=
  let tutorCount := (s.tutors.filter (fun t => t.categoryId == categoryId)).length
  if tutorCount > 0 then
    (Except.error (httpErrors.conflictWithCode
      "Cannot delete category that is still assigned to tutors." "CATEGORY_IN_USE"), s)
  else
    match findCategoryById s categoryId with
    | none => (Except.error ⟨500, "INTERNAL_SERVER_ERROR", "Record to delete does not exist."⟩, s)
    | some c =>
      (Except.ok c,
        { s with categories := s.categories.filter (fun x => !(x.categoryId == categoryId)) })

/-- Claim C7: deleteCategory yields a 409 conflict with machine code
CATEGORY_IN_USE and removes nothing when at least one tutor references the
category, and deletes the category (and only it) when zero tutors reference
it. -/
theorem c7_deleteCategory (s : Store) (categoryId : String) :
    ((s.tutors.filter (fun t => t.categoryId == categoryId)).length > 0 →
      (deleteCategory s categoryId).1 =
        Except.error ⟨409, "CATEGORY_IN_USE",
          "Cannot delete category that is still assigned to tutors."⟩ ∧
      (deleteCategory s categoryId).2 = s) ∧
    ((s.tutors.filter (fun t => t.categoryId == categoryId)).length = 0 →
      ∀ c, findCategoryById s categoryId = some c →
        (deleteCategory s categoryId).1 = Except.ok c ∧
        (∀ x ∈ (deleteCategory s categoryId).2.categories, x.categoryId ≠ categoryId) ∧
        (∀ x ∈ s.categories, x.categoryId ≠ categoryId →
          x ∈ (deleteCategory s categoryId).2.categories) ∧
        (∀ x ∈ (deleteCategory s categoryId).2.categories, x ∈ s.categories)) := by
  constructor
  · intro hcount
    constructor <;>
      simp [deleteCategory, hcount, httpErrors.conflictWithCode]
  · intro hcount c hc
    have hif : ¬ (s.tutors.filter (fun t => t.categoryId == categoryId)).length > 0 := by
      omega
    have h2 : (deleteCategory s categoryId).2.categories =
        s.categories.filter (fun x => !(x.categoryId == categoryId)) := by
      simp [deleteCategory, hif, hc]
    refine ⟨?_, ?_, ?_, ?_⟩
    · simp [deleteCategory, hif, hc]
    · intro x hx
      rw [h2] at hx
      have := (List.mem_filter.mp hx).2
      simpa using this
    · intro x hx hne
      rw [h2]
      exact List.mem_filter.mpr ⟨hx, by simpa using hne⟩
    · intro x hx
      rw [h2] at hx
      exact (List.mem_filter.mp hx).1

/-- `demoStore2` with a second, unreferenced category. -/
def demoStore4 : Store :=
  { demoStore2 with categories := [⟨"c1", "Science", ["Math"]⟩, ⟨"c2", "Arts", ["History"]⟩] }

/-- Witness for C7: deleting `c1`, referenced by the demo tutor, yields the
CATEGORY_IN_USE conflict and leaves the store unchanged; deleting the
unreferenced `c2` succeeds. -/
theorem c7_witness :
    ((deleteCategory demoStore4 "c1").1 =
        Except.error ⟨409, "CATEGORY_IN_USE",
          "Cannot delete category that is still assigned to tutors."⟩ ∧
      (deleteCategory demoStore4 "c1").2 = demoStore4) ∧
    (deleteCategory demoStore4 "c2").1 = Except.ok ⟨"c2", "Arts", ["History"]⟩ := by
  constructor
  · exact (c7_deleteCategory demoStore4 "c1").1 (by decide)
  · exact ((c7_deleteCategory demoStore4 "c2").2 (by decide)
      ⟨"c2", "Arts", ["History"]⟩ (by decide)).1

/-- Presence-detection for a JSON body field guarded by
`Object.prototype.hasOwnProperty`: the key is absent, explicitly
null/undefined, or set to a value. -/
inductive FieldPatch (α : Type)
  | absent
  | null
  | set (val : α)
deriving DecidableEq, Repr

/-- The source merges such a field with `key present ? { f: v ?? null } : {}`. -/
def FieldPatch.apply {α : Type} (p : FieldPatch α) (old : Option α) : Option α :=
  match p with
  | .absent => old
  | .null => none
  | .set v => some v

/-- `Partial<UpsertStudentProfileInput>` as consumed by
`updateMyStudentProfile`: `Option` fields mirror the `typeof === "string"`
(resp. truthiness for `group`) guards, `FieldPatch` fields mirror the
`hasOwnProperty` guards. -/
structure StudentPatch where
  class_ : Option String
  institute : Option String
  address : Option String
  phone : Option String
  profilePic : FieldPatch String
  bio : FieldPatch String
  group : Option Group
deriving DecidableEq, Repr

/-- The `data` object built by `prisma.student.update` in
`updateMyStudentProfile`. -/
def applyStudentPatch (p : StudentPatch) (st : Student) : Student :=
  { st with
    class_ := p.class_.getD st.class_,
    institute := p.institute.getD st.institute,
    address := p.address.getD st.address,
    phone := p.phone.getD st.phone,
    profilePic := p.profilePic.apply st.profilePic,
    bio := p.bio.apply st.bio,
    group := p.group.getD st.group }

/-- `updateMyStudentProfile` of `student.service.ts`: 404 when no profile
exists, else a presence-detecting partial update. -/
def updateMyStudentProfile (s : Store) (userId : String) (p : StudentPatch) :
    Except HttpError Student × Store :=
  match findStudentByUserId s userId with
  | none =>
    (Except.error (httpErrors.notFound "Student profile not found. Create your profile first."), s)
  | some st =>
    (Except.ok (applyStudentPatch p st),
      { s with students := s.students.map fun x =>
          if x.userId == userId then applyStudentPatch p x else x })

/-- `Partial<UpsertTutorProfileInput>` as consumed by
`updateMyTutorProfile`, with the same presence-detection conventions. -/
structure TutorPatch where
  subject : Option String
  experience : Option Int
  address : Option String
  phone : Option String
  pricePerDay : Option Rat
  profilePic : FieldPatch String
  bio : FieldPatch String
  institute : FieldPatch String
  group : Option Group
  categoryId : Option String
deriving DecidableEq, Repr

/-- The `data` object built by `prisma.tutor.update` in
`updateMyTutorProfile`. -/
def applyTutorPatch (p : TutorPatch) (t : Tutor) : Tutor :=
  { t with
    subject := p.subject.getD t.subject,
    experience := p.experience.getD t.experience,
    address := p.address.getD t.address,
    phone := p.phone.getD t.phone,
    profilePic := p.profilePic.apply t.profilePic,
    bio := p.bio.apply t.bio,
    institute := p.institute.apply t.institute,
    group := p.group.getD t.group,
    categoryId := p.categoryId.getD t.categoryId,
    pricePerDay := p.pricePerDay.getD t.pricePerDay }

/-- `updateMyTutorProfile` of `tutor.service.ts`: 404 when no profile
exists; when a categoryId is supplied it must exist (404 INVALID_CATEGORY
otherwise); then a presence-detecting partial update. -/
def updateMyTutorProfile (s : Store) (userId : String) (p : TutorPatch) :
    Except HttpError Tutor × Store :=
  match findTutorByUserId s userId with
  | none =>
    (Except.error (httpErrors.notFound "Tutor profile not found. Create your profile first."), s)
  | some t =>
    match p.categoryId with
    | some cid =>
      match findCategoryById s cid with
      | none => (Except.error (httpErrors.notFoundWithCode "Category not found." "INVALID_CATEGORY"), s)
      | some _ =>
        (Except.ok (applyTutorPatch p t),
          { s with tutors := s.tutors.map fun x =>
              if x.userId == userId then applyTutorPatch p x else x })
    | none =>
      (Except.ok (applyTutorPatch p t),
        { s with tutors := s.tutors.map fun x =>
            if x.userId == userId then applyTutorPatch p x else x })

/-- The per-field contract of the student partial update: absent key →
unchanged, explicit null on a nullable field → cleared, present value →
overwritten; keys outside the patch (ids) untouched. -/
def studentPatchSpec (p : StudentPatch) (st st' : Student) : Prop :=
  (p.class_ = none → st'.class_ = st.class_) ∧
  (∀ v, p.class_ = some v → st'.class_ = v) ∧
  (p.institute = none → st'.institute = st.institute) ∧
  (∀ v, p.institute = some v → st'.institute = v) ∧
  (p.address = none → st'.address = st.address) ∧
  (∀ v, p.address = some v → st'.address = v) ∧
  (p.phone = none → st'.phone = st.phone) ∧
  (∀ v, p.phone = some v → st'.phone = v) ∧
  (p.profilePic = FieldPatch.absent → st'.profilePic = st.profilePic) ∧
  (p.profilePic = FieldPatch.null → st'.profilePic = none) ∧
  (∀ v, p.profilePic = FieldPatch.set v → st'.profilePic = some v) ∧
  (p.bio = FieldPatch.absent → st'.bio = st.bio) ∧
  (p.bio = FieldPatch.null → st'.bio = none) ∧
  (∀ v, p.bio = FieldPatch.set v → st'.bio = some v) ∧
  (p.group = none → st'.group = st.group) ∧
  (∀ g, p.group = some g → st'.group = g) ∧
  st'.studentId = st.studentId ∧
  st'.userId = st.userId

/-- The per-field contract of the tutor partial update (same conventions),
including that the admin-only and availability fields are untouched. -/
def tutorPatchSpec (p : TutorPatch) (t t' : Tutor) : Prop :=
  (p.subject = none → t'.subject = t.subject) ∧
  (∀ v, p.subject = some v → t'.subject = v) ∧
  (p.experience = none → t'.experience = t.experience) ∧
  (∀ v, p.experience = some v → t'.experience = v) ∧
  (p.address = none → t'.address = t.address) ∧
  (∀ v, p.address = some v → t'.address = v) ∧
  (p.phone = none → t'.phone = t.phone) ∧
  (∀ v, p.phone = some v → t'.phone = v) ∧
  (p.pricePerDay = none → t'.pricePerDay = t.pricePerDay) ∧
  (∀ v, p.pricePerDay = some v → t'.pricePerDay = v) ∧
  (p.profilePic = FieldPatch.absent → t'.profilePic = t.profilePic) ∧
  (p.profilePic = FieldPatch.null → t'.profilePic = none) ∧
  (∀ v, p.profilePic = FieldPatch.set v → t'.profilePic = some v) ∧
  (p.bio = FieldPatch.absent → t'.bio = t.bio) ∧
  (p.bio = FieldPatch.null → t'.bio = none) ∧
  (∀ v, p.bio = FieldPatch.set v → t'.bio = some v) ∧
  (p.institute = FieldPatch.absent → t'.institute = t.institute) ∧
  (p.institute = FieldPatch.null → t'.institute = none) ∧
  (∀ v, p.institute = FieldPatch.set v → t'.institute = some v) ∧
  (p.group = none → t'.group = t.group) ∧
  (∀ g, p.group = some g → t'.group = g) ∧
  (p.categoryId = none → t'.categoryId = t.categoryId) ∧
  (∀ v, p.categoryId = some v → t'.categoryId = v) ∧
  t'.tutorId = t.tutorId ∧
  t'.userId = t.userId ∧
  t'.isFeatured = t.isFeatured ∧
  t'.isAvailable = t.isAvailable ∧
  t'.availableFrom = t.availableFrom ∧
  t'.availableTo = t.availableTo ∧
  t'.createdAt = t.createdAt

/-- The built student update object satisfies the per-field contract. -/
theorem applyStudentPatch_spec (p : StudentPatch) (st : Student) :
    studentPatchSpec p st (applyStudentPatch p st) := by
  unfold studentPatchSpec
  refine ⟨?_, ?_, ?_, ?_, ?_, ?_, ?_, ?_, ?_, ?_, ?_, ?_, ?_, ?_, ?_, ?_, ?_, ?_⟩ <;>
    first
      | (rintro v h; simp [applyStudentPatch, h, FieldPatch.apply])
      | (rintro h; simp [applyStudentPatch, h, FieldPatch.apply])
      | simp [applyStudentPatch]

/-- The built tutor update object satisfies the per-field contract. -/
theorem applyTutorPatch_spec (p : TutorPatch) (t : Tutor) :
    tutorPatchSpec p t (applyTutorPatch p t) := by
  unfold tutorPatchSpec
  refine ⟨?_, ?_, ?_, ?_, ?_, ?_, ?_, ?_, ?_, ?_, ?_, ?_, ?_, ?_, ?_, ?_, ?_, ?_, ?_,
    ?_, ?_, ?_, ?_, ?_, ?_, ?_, ?_, ?_, ?_, ?_⟩ <;>
    first
      | (rintro v h; simp [applyTutorPatch, h, FieldPatch.apply])
      | (rintro h; simp [applyTutorPatch, h, FieldPatch.apply])
      | simp [applyTutorPatch]

/-- Claim C6: partial profile update fails 404 when no profile exists for
the caller; otherwise every field explicitly present in the input is
overwritten (with explicit null clearing a nullable field to null), every
absent key leaves the stored value unchanged, no field outside the input's
present keys is modified, and rows of other users are untouched. For the
tutor variant a supplied categoryId must reference an existing category. -/
theorem c6_partial_profile_update (s : Store) (userId : String)
    (ps : StudentPatch) (pt : TutorPatch) :
    (findStudentByUserId s userId = none →
      (updateMyStudentProfile s userId ps).1 =
        Except.error ⟨404, "NOT_FOUND", "Student profile not found. Create your profile first."⟩ ∧
      (updateMyStudentProfile s userId ps).2 = s) ∧
    (∀ st, findStudentByUserId s userId = some st →
      (updateMyStudentProfile s userId ps).1 = Except.ok (applyStudentPatch ps st) ∧
      studentPatchSpec ps st (applyStudentPatch ps st) ∧
      (∀ x ∈ s.students, x.userId ≠ userId →
        x ∈ (updateMyStudentProfile s userId ps).2.students)) ∧
    (findTutorByUserId s userId = none →
      (updateMyTutorProfile s userId pt).1 =
        Except.error ⟨404, "NOT_FOUND", "Tutor profile not found. Create your profile first."⟩ ∧
      (updateMyTutorProfile s userId pt).2 = s) ∧
    (∀ t cid, findTutorByUserId s userId = some t → pt.categoryId = some cid →
      findCategoryById s cid = none →
      (updateMyTutorProfile s userId pt).1 =
        Except.error ⟨404, "INVALID_CATEGORY", "Category not found."⟩ ∧
      (updateMyTutorProfile s userId pt).2 = s) ∧
    (∀ t, findTutorByUserId s userId = some t →
      (pt.categoryId = none ∨
        ∃ cid c, pt.categoryId = some cid ∧ findCategoryById s cid = some c) →
      (updateMyTutorProfile s userId pt).1 = Except.ok (applyTutorPatch pt t) ∧
      tutorPatchSpec pt t (applyTutorPatch pt t) ∧
      (∀ x ∈ s.tutors, x.userId ≠ userId →
        x ∈ (updateMyTutorProfile s userId pt).2.tutors)) := by
  refine ⟨?_, ?_, ?_, ?_, ?_⟩
  · intro h
    constructor <;> simp [updateMyStudentProfile, h, httpErrors.notFound]
  · intro st hst
    refine ⟨?_, applyStudentPatch_spec ps st, ?_⟩
    · simp [updateMyStudentProfile, hst]
    · intro x hx hne
      have h2 : (updateMyStudentProfile s userId ps).2.students =
          s.students.map (fun x => if x.userId == userId then applyStudentPatch ps x else x) := by
        simp [updateMyStudentProfile, hst]
      rw [h2]
      have hfix : (fun x => if x.userId == userId then applyStudentPatch ps x else x) x = x := by
        simp [hne]
      exact hfix ▸ List.mem_map_of_mem _ hx
  · intro h
    constructor <;> simp [updateMyTutorProfile, h, httpErrors.notFound]
  · intro t cid ht hcid hcat
    constructor <;>
      simp [updateMyTutorProfile, ht, hcid, hcat, httpErrors.notFoundWithCode]
  · intro t ht hcat
    have h1 : (updateMyTutorProfile s userId pt).1 = Except.ok (applyTutorPatch pt t) ∧
        (updateMyTutorProfile s userId pt).2.tutors =
          s.tutors.map (fun x => if x.userId == userId then applyTutorPatch pt x else x) := by
      rcases hcat with hnone | ⟨cid, c, hcid, hc⟩
      · constructor <;> simp [updateMyTutorProfile, ht, hnone]
      · constructor <;> simp [updateMyTutorProfile, ht, hcid, hc]
    refine ⟨h1.1, applyTutorPatch_spec pt t, ?_⟩
    · intro x hx hne
      rw [h1.2]
      have hfix : (fun x => if x.userId == userId then applyTutorPatch pt x else x) x = x := by
        simp [hne]
      exact hfix ▸ List.mem_map_of_mem _ hx

/-- Witness for C6: updating a user without a profile yields the 404; a
tutor update with an unknown categoryId yields 404 INVALID_CATEGORY; and a
concrete patch on the demo student overwrites `class` with "11", clears
`profilePic` via explicit null, sets `bio`, and leaves every absent field
unchanged. -/
theorem c6_witness :
    (updateMyStudentProfile demoStore2 "zz"
        ⟨none, none, none, none, FieldPatch.absent, FieldPatch.absent, none⟩).1 =
      Except.error ⟨404, "NOT_FOUND", "Student profile not found. Create your profile first."⟩ ∧
    (updateMyTutorProfile demoStore2 "u2"
        ⟨none, none, none, none, none, FieldPatch.absent, FieldPatch.absent,
          FieldPatch.absent, none, some "cX"⟩).1 =
      Except.error ⟨404, "INVALID_CATEGORY", "Category not found."⟩ ∧
    (updateMyStudentProfile demoStore2 "u1"
        ⟨some "11", none, none, none, FieldPatch.null, FieldPatch.set "hi", none⟩).1 =
      Except.ok ⟨"st1", "u1", "11", "ABC", "X", "017", none, some "hi", Group.NONE⟩ := by
  refine ⟨?_, ?_, ?_⟩
  · exact ((c6_partial_profile_update demoStore2 "zz"
      ⟨none, none, none, none, FieldPatch.absent, FieldPatch.absent, none⟩
      ⟨none, none, none, none, none, FieldPatch.absent, FieldPatch.absent,
        FieldPatch.absent, none, none⟩).1 (by decide)).1
  · exact ((c6_partial_profile_update demoStore2 "u2"
      ⟨none, none, none, none, FieldPatch.absent, FieldPatch.absent, none⟩
      ⟨none, none, none, none, none, FieldPatch.absent, FieldPatch.absent,
        FieldPatch.absent, none, some "cX"⟩).2.2.2.1
      ⟨"tu1", "u2", "Math", 2, "Y", "018", none, none, none, Group.SCIENCE,
        "c1", 500, false, true, none, none, 0⟩
      "cX" (by decide) rfl (by decide)).1
  · have h := ((c6_partial_profile_update demoStore2 "u1"
      ⟨some "11", none, none, none, FieldPatch.null, FieldPatch.set "hi", none⟩
      ⟨none, none, none, none, none, FieldPatch.absent, FieldPatch.absent,
        FieldPatch.absent, none, none⟩).2.1
      ⟨"st1", "u1", "10", "ABC", "X", "017", none, none, Group.NONE⟩ (by decide)).1
    exact h.trans (congrArg Except.ok (by decide))

/-- Whether `needle` is a prefix of `hay` (character lists). -/
def startsWithChars : List Char → List Char → Bool
  | [], _ => true
  | _ :: _, [] => false
  | a :: as, b :: bs => a == b && startsWithChars as bs

/-- Whether `needle` occurs contiguously inside `hay` (character lists). -/
def containsChars (needle : List Char) : List Char → Bool
  | [] => startsWithChars needle []
  | c :: rest => startsWithChars needle (c :: rest) || containsChars needle rest

/-- Prisma `{ contains: q, mode: "insensitive" }` on a text column. -/
def containsInsensitive (hay needle : String) : Bool :=
  containsChars needle.toLower.data hay.toLower.data

/-- The `BrowseTutorsInput` of the student service. -/
structure BrowseTutorsInput where
  page : Option JsNum
  limit : Option JsNum
  search : Option String
  categoryId : Option String
  group : Option Group
  minPricePerDay : Option Rat
  maxPricePerDay : Option Rat
  onlyAvailable : Option Bool
  onlyFeatured : Option Bool
deriving DecidableEq, Repr

/-- The `Prisma.TutorWhereInput` built by `browseTutors`; a falsy (empty)
categoryId or search string omits that filter, as the source's truthiness
checks do. -/
def tutorMatches (s : Store) (input : BrowseTutorsInput) (t : Tutor) : Bool :=
  (match input.categoryId with
   | some c => if c.isEmpty then true else t.categoryId == c
   | none => true) &&
  (match input.group with
   | some g => t.group == g
   | none => true) &&
  (match input.onlyAvailable with
   | some b => t.isAvailable == b
   | none => true) &&
  (match input.onlyFeatured with
   | some b => t.isFeatured == b
   | none => true) &&
  (match input.minPricePerDay with
   | some m => decide (m ≤ t.pricePerDay)
   | none => true) &&
  (match input.maxPricePerDay with
   | some m => decide (t.pricePerDay ≤ m)
   | none => true) &&
  (match input.search with
   | some q0 =>
     let q := q0.trim
     if q.isEmpty then true
     else
       containsInsensitive t.subject q ||
         (match findUserById s t.userId with
          | some u => containsInsensitive u.name q
          | none => false)
   | none => true)

/-- The in-memory average of `browseTutors`/`getTutorDetails`:
`ratings.length ? ratings.reduce((a,b) => a+b, 0) / ratings.length : 0`. -/
def avgOf (ratings : List Int) : Rat :=
  if ratings.length = 0 then 0
  else ((ratings.foldl (fun a b => a + b) 0 : Int) : Rat) / (ratings.length : Rat)

/-- The arithmetic mean as the spec words it: sum of the ratings divided by
their number, 0 when there are none. -/
def arithMeanSpec (ratings : List Int) : Rat :=
  if ratings = [] then 0
  else (ratings.map (fun r : Int => (r : Rat))).sum / (ratings.length : Rat)

/-- Casting an integer left fold of additions into ℚ gives the sum of the
casts. -/
theorem cast_foldl_add (xs : List Int) :
    ∀ a : Int, ((xs.foldl (fun x y => x + y) a : Int) : Rat) =
      (a : Rat) + (xs.map (fun r : Int => (r : Rat))).sum := by
  induction xs with
  | nil => intro a; simp
  | cons x xs ih =>
    intro a
    rw [List.foldl_cons, ih (a + x), List.map_cons, List.sum_cons]
    push_cast
    ring

/-- The code's reduce-based average is the spec's arithmetic mean. -/
theorem avgOf_eq_arithMeanSpec (ratings : List Int) :
    avgOf ratings = arithMeanSpec ratings := by
  rcases hr : ratings with _ | ⟨x, xs⟩
  · simp [avgOf, arithMeanSpec]
  · have hlen : (x :: xs).length ≠ 0 := by simp
    have hnil : (x :: xs) ≠ [] := by simp
    simp only [avgOf, arithMeanSpec, hlen, hnil, if_neg, if_false]
    rw [cast_foldl_add]
    norm_num

/-- The ratings of a tutor's reviews (`include: { reviews: { select:
{ rating: true } } }`). -/
def tutorRatings (s : Store) (t : Tutor) : List Int :=
  (s.reviews.filter (fun r => r.tutorId == t.tutorId)).map Review.rating

/-- A tutor annotated with the derived `avgRating` and `reviewsCount`. -/
structure TutorWithRating where
  tutor : Tutor
  avgRating : Rat
  reviewsCount : Nat
deriving DecidableEq, Repr

/-- The annotation step of `browseTutors`/`getTutorDetails`. -/
def annotateTutor (s : Store) (t : Tutor) : TutorWithRating :=
  ⟨t, avgOf (tutorRatings s t), (tutorRatings s t).length⟩

/-- `browseTutors` of `student.service.ts`: filter, order by `createdAt`
descending, paginate, then annotate each page item in application code. -/
def browseTutors (s : Store) (input : BrowseTutorsInput) :
    PageMeta × List TutorWithRating :=
  let pg := normalizePagination (some ⟨input.page, input.limit⟩)
  let matching := s.tutors.filter (tutorMatches s input)
  let total : Int := matching.length
  let pageItems :=
    ((List.insertionSort (fun a b => b.createdAt ≤ a.createdAt) matching).drop
      pg.skip.toNat).take pg.limit.toNat
  (toPageMeta pg.page pg.limit total, pageItems.map (annotateTutor s))

/-- `getTutorDetails` of `student.service.ts`: null for an unknown id, else
the tutor annotated with the derived rating fields. -/
def getTutorDetails (s : Store) (tutorId : String) : Option TutorWithRating :=
  match findTutorById s tutorId with
  | none => none
  | some t => some (annotateTutor s t)

/-- Claim C8: every tutor returned by browseTutors or getTutorDetails
carries `avgRating` equal to the arithmetic mean of that tutor's review
ratings (0 when it has none) and `reviewsCount` equal to the number of that
tutor's reviews. -/
theorem c8_derived_rating_fields (s : Store) (input : BrowseTutorsInput)
    (tutorId : String) :
    (∀ e ∈ (browseTutors s input).2,
      e.avgRating = arithMeanSpec (tutorRatings s e.tutor) ∧
      e.reviewsCount = (s.reviews.filter (fun r => r.tutorId == e.tutor.tutorId)).length ∧
      (tutorRatings s e.tutor = [] → e.avgRating = 0)) ∧
    (∀ d, getTutorDetails s tutorId = some d →
      d.avgRating = arithMeanSpec (tutorRatings s d.tutor) ∧
      d.reviewsCount = (s.reviews.filter (fun r => r.tutorId == d.tutor.tutorId)).length ∧
      (tutorRatings s d.tutor = [] → d.avgRating = 0)) := by
  have hann : ∀ t : Tutor,
      (annotateTutor s t).avgRating = arithMeanSpec (tutorRatings s t) ∧
      (annotateTutor s t).reviewsCount =
        (s.reviews.filter (fun r => r.tutorId == t.tutorId)).length ∧
      (tutorRatings s t = [] → (annotateTutor s t).avgRating = 0) := by
    intro t
    refine ⟨avgOf_eq_arithMeanSpec (tutorRatings s t), ?_, ?_⟩
    · simp [annotateTutor, tutorRatings]
    · intro h
      simp [annotateTutor, h, avgOf]
  constructor
  · intro e he
    obtain ⟨t, _, rfl⟩ := List.mem_map.mp he
    exact hann t
  · intro d hd
    cases hfind : findTutorById s tutorId with
    | none => simp [getTutorDetails, hfind] at hd
    | some t =>
      have : d = annotateTutor s t := by
        simp [getTutorDetails, hfind] at hd
        exact hd.symm
      subst this
      exact hann t

/-- The demo tutor row of `demoStore2`/`demoStore3`. -/
def demoTutor : Tutor :=
  ⟨"tu1", "u2", "Math", 2, "Y", "018", none, none, none, Group.SCIENCE,
    "c1", 500, false, true, none, none, 0⟩

/-- An empty browse input (all filters absent). -/
def emptyBrowseInput : BrowseTutorsInput :=
  ⟨none, none, none, none, none, none, none, none, none⟩

/-- Witness for C8: in `demoStore3`, whose single review has rating 5, the
tutor detail and the browse page both report `avgRating = 5` and
`reviewsCount = 1`. -/
theorem c8_witness :
    getTutorDetails demoStore3 "tu1" = some (annotateTutor demoStore3 demoTutor) ∧
    (browseTutors demoStore3 emptyBrowseInput).2 = [annotateTutor demoStore3 demoTutor] ∧
    (annotateTutor demoStore3 demoTutor).avgRating = 5 ∧
    (annotateTutor demoStore3 demoTutor).reviewsCount = 1 := by
  have h := (c8_derived_rating_fields demoStore3 emptyBrowseInput "tu1").2
    (annotateTutor demoStore3 demoTutor) rfl
  have havg : (annotateTutor demoStore3 demoTutor).avgRating =
      arithMeanSpec (tutorRatings demoStore3 demoTutor) := h.1
  have hrat : tutorRatings demoStore3 demoTutor = [(5 : Int)] := by decide
  refine ⟨rfl, rfl, ?_, ?_⟩
  · rw [havg, hrat]
    norm_num [arithMeanSpec]
  · have hc : (annotateTutor demoStore3 demoTutor).reviewsCount =
        (demoStore3.reviews.filter (fun r => r.tutorId == demoTutor.tutorId)).length := h.2.1
    rw [hc]
    decide

/-- The clamp of the analytics leaderboard size:
`Math.min(20, Math.max(1, input.topTutorsLimit ?? 5))`. -/
def analyticsTopLimit (topTutorsLimit : Option Int) : Int :=
  min 20 (max 1 (topTutorsLimit.getD 5))

/-- One row of `prisma.review.groupBy({ by: ["tutorId"], _avg: { rating },
_count: { _all } })`. -/
structure TutorRatingAgg where
  tutorId : String
  avgRating : Rat
  count : Nat
deriving DecidableEq, Repr

/-- The review aggregation grouped by tutor. -/
def reviewGroupByTutor (s : Store) : List TutorRatingAgg :=
  ((s.reviews.map Review.tutorId).dedup).map fun tid =>
    let rs := s.reviews.filter (fun r => r.tutorId == tid)
    ⟨tid, avgOf (rs.map Review.rating), rs.length⟩

/-- The groupBy ordering `[{ _avg: { rating: "desc" } }, { _count:
{ reviewId: "desc" } }]`: higher average first, ties broken by more
reviews. -/
def aggBefore (a b : TutorRatingAgg) : Prop :=
  b.avgRating < a.avgRating ∨ (a.avgRating = b.avgRating ∧ b.count ≤ a.count)

instance : DecidableRel aggBefore := fun a b => by
  unfold aggBefore
  infer_instance

/-- `aggBefore` is total. -/
theorem aggBefore_total : ∀ a b, aggBefore a b ∨ aggBefore b a := by
  intro a b
  unfold aggBefore
  rcases lt_trichotomy a.avgRating b.avgRating with h | h | h
  · exact Or.inr (Or.inl h)
  · rcases le_total b.count a.count with hc | hc
    · exact Or.inl (Or.inr ⟨h, hc⟩)
    · exact Or.inr (Or.inr ⟨h.symm, hc⟩)
  · exact Or.inl (Or.inl h)

/-- `aggBefore` is transitive. -/
theorem aggBefore_trans : ∀ a b c, aggBefore a b → aggBefore b c → aggBefore a c := by
  intro a b c hab hbc
  unfold aggBefore at *
  rcases hab with h1 | ⟨h1, h1c⟩ <;> rcases hbc with h2 | ⟨h2, h2c⟩
  · exact Or.inl (h2.trans h1)
  · exact Or.inl (by rw [← h2]; exact h1)
  · exact Or.inl (by rw [h1]; exact h2)
  · exact Or.inr ⟨h1.trans h2, h2c.trans h1c⟩

instance : IsTotal TutorRatingAgg aggBefore := ⟨aggBefore_total⟩

instance : IsTrans TutorRatingAgg aggBefore := ⟨aggBefore_trans⟩

/-- The `topTutors` part of `getAnalytics` in `admin.service.ts`: the
grouped review aggregates, ordered by (average rating desc, review count
desc), truncated to the clamped top-N limit. -/
def getAnalyticsTopTutors (s : Store) (topTutorsLimit : Option Int) :
    List TutorRatingAgg :=
  (List.insertionSort aggBefore (reviewGroupByTutor s)).take
    (analyticsTopLimit topTutorsLimit).toNat

/-- Claim C9: the top-tutors leaderboard has at most
N = min(20, max(1, topTutorsLimit ?? 5)) entries, is ordered by average
rating descending with ties broken by review count descending, and each
entry carries that tutor's review count and arithmetic-mean rating. -/
theorem c9_top_tutors (s : Store) (lim : Option Int) :
    analyticsTopLimit lim = min 20 (max 1 (lim.getD 5)) ∧
    (getAnalyticsTopTutors s lim).length ≤ (analyticsTopLimit lim).toNat ∧
    List.Pairwise
      (fun a b => b.avgRating < a.avgRating ∨
        (a.avgRating = b.avgRating ∧ b.count ≤ a.count))
      (getAnalyticsTopTutors s lim) ∧
    (∀ e ∈ getAnalyticsTopTutors s lim,
      e.count = (s.reviews.filter (fun r => r.tutorId == e.tutorId)).length ∧
      e.avgRating = arithMeanSpec
        ((s.reviews.filter (fun r => r.tutorId == e.tutorId)).map Review.rating)) := by
  refine ⟨rfl, ?_, ?_, ?_⟩
  · exact List.length_take_le _ _
  · have hs : List.Pairwise aggBefore (getAnalyticsTopTutors s lim) := by
      have hsorted := List.sorted_insertionSort aggBefore (reviewGroupByTutor s)
      exact List.Pairwise.sublist (List.take_sublist _ _) hsorted
    exact hs
  · intro e he
    have hmem : e ∈ List.insertionSort aggBefore (reviewGroupByTutor s) :=
      (List.take_sublist _ _).mem he
    have hmem2 : e ∈ reviewGroupByTutor s :=
      (List.mem_insertionSort aggBefore).mp hmem
    obtain ⟨tid, _, rfl⟩ := List.mem_map.mp hmem2
    refine ⟨by simp [reviewGroupByTutor], ?_⟩
    simpa using avgOf_eq_arithMeanSpec
      ((s.reviews.filter (fun r => r.tutorId == tid)).map Review.rating)

/-- Witness for C9: in `demoStore3` (one review, rating 5, tutor `tu1`) the
leaderboard with an absent limit clamps N to 5, is the singleton aggregate
for `tu1`, and that entry's average is 5 with count 1. -/
theorem c9_witness :
    analyticsTopLimit none = 5 ∧
    getAnalyticsTopTutors demoStore3 none = [⟨"tu1", avgOf [(5 : Int)], 1⟩] ∧
    avgOf [(5 : Int)] = 5 ∧
    (⟨"tu1", avgOf [(5 : Int)], 1⟩ : TutorRatingAgg).count = 1 := by
  have hlim : analyticsTopLimit none = 5 := by
    simp only [analyticsTopLimit, Option.getD_none]
    omega
  have hgroup : reviewGroupByTutor demoStore3 = [⟨"tu1", avgOf [(5 : Int)], 1⟩] := rfl
  have hlist : getAnalyticsTopTutors demoStore3 none = [⟨"tu1", avgOf [(5 : Int)], 1⟩] := by
    unfold getAnalyticsTopTutors
    rw [hgroup, hlim]
    rfl
  have h := (c9_top_tutors demoStore3 none).2.2.2 ⟨"tu1", avgOf [(5 : Int)], 1⟩
    (by rw [hlist]; exact List.mem_singleton.mpr rfl)
  refine ⟨hlim, hlist, ?_, rfl⟩
  have havg := h.2
  simp only at havg
  rw [havg]
  have : (demoStore3.reviews.filter
      (fun r => r.tutorId == "tu1")).map Review.rating = [(5 : Int)] := rfl
  rw [this]
  norm_num [arithMeanSpec]

/-- `getUserById` of `admin.service.ts` (the relation includes do not
change which row, if any, is returned). -/
def getUserById (s : Store) (userId : String) : Option User :=
  findUserById s userId

/-- `deleteUserHard` of `admin.service.ts`: null when the user does not
exist; otherwise delete the user, Prisma cascading through the Student and
Tutor profiles to their bookings and reviews. Returns the
`{ deletedUserId }` payload as the deleted id. -/
def deleteUserHard (s : Store) (userId : String) : Option String × Store :=
  match findUserById s userId with
  | none => (none, s)
  | some _ =>
    let sids := (s.students.filter (fun st => st.userId == userId)).map Student.studentId
    let tids := (s.tutors.filter (fun t => t.userId == userId)).map Tutor.tutorId
    (some userId,
      { s with
        users := s.users.filter (fun u => !(u.id == userId)),
        students := s.students.filter (fun st => !(st.userId == userId)),
        tutors := s.tutors.filter (fun t => !(t.userId == userId)),
        bookings := s.bookings.filter (fun b =>
          !(sids.contains b.studentId || tids.contains b.tutorId)),
        reviews := s.reviews.filter (fun r =>
          !(sids.contains r.studentId || tids.contains r.tutorId)) })

/-- The response envelope a controller sends: HTTP status, `success`, the
`data` payload (null allowed) or an error code. -/
structure ApiResponse (α : Type) where
  status : Nat
  success : Bool
  data : Option α
  errorCode : Option String
deriving DecidableEq, Repr

/-- The `getTutorDetails` controller: 400 for a missing (falsy) path param,
else 200 with the service result, null included, as `data`. -/
def getTutorDetailsController (s : Store) (tutorId : String) :
    ApiResponse TutorWithRating :=
  if tutorId.isEmpty then ⟨400, false, none, some "BAD_REQUEST"⟩
  else ⟨200, true, getTutorDetails s tutorId, none⟩

/-- The admin `getUser` controller. -/
def getUserController (s : Store) (userId : String) : ApiResponse User :=
  if userId.isEmpty then ⟨400, false, none, some "BAD_REQUEST"⟩
  else ⟨200, true, getUserById s userId, none⟩

/-- The admin `deleteUser` controller, paired with the resulting store. -/
def deleteUserController (s : Store) (userId : String) :
    ApiResponse String × Store :=
  if userId.isEmpty then (⟨400, false, none, some "BAD_REQUEST"⟩, s)
  else ((⟨200, true, (deleteUserHard s userId).1, none⟩ : ApiResponse String),
    (deleteUserHard s userId).2)

/-- Claim C10: looking up a nonexistent entity by id on the tutor-detail,
admin get-user and admin delete-user endpoints does not 404: the service
returns null and the adapter responds HTTP 200 with success true and data
null (and the delete leaves the store unchanged). -/
theorem c10_nonexistent_id_responds_200_null (s : Store)
    (tutorId userId1 userId2 : String) :
    (tutorId ≠ "" → findTutorById s tutorId = none →
      getTutorDetailsController s tutorId = ⟨200, true, none, none⟩) ∧
    (userId1 ≠ "" → findUserById s userId1 = none →
      getUserController s userId1 = ⟨200, true, none, none⟩) ∧
    (userId2 ≠ "" → findUserById s userId2 = none →
      deleteUserController s userId2 = (⟨200, true, none, none⟩, s)) := by
  refine ⟨?_, ?_, ?_⟩
  · intro hne hfind
    have hempty : tutorId.isEmpty = false := by
      rw [Bool.eq_false_iff]
      intro h
      exact hne ((String.isEmpty_iff _).mp h)
    simp [getTutorDetailsController, hempty, getTutorDetails, hfind]
  · intro hne hfind
    have hempty : userId1.isEmpty = false := by
      rw [Bool.eq_false_iff]
      intro h
      exact hne ((String.isEmpty_iff _).mp h)
    simp [getUserController, hempty, getUserById, hfind]
  · intro hne hfind
    have hempty : userId2.isEmpty = false := by
      rw [Bool.eq_false_iff]
      intro h
      exact hne ((String.isEmpty_iff _).mp h)
    simp [deleteUserController, hempty, deleteUserHard, hfind]

/-- Witness for C10: ids absent from `demoStore2` produce 200 envelopes
with null data on all three endpoints, and the hard delete removes
nothing. -/
theorem c10_witness :
    getTutorDetailsController demoStore2 "ghost" = ⟨200, true, none, none⟩ ∧
    getUserController demoStore2 "ghost" = ⟨200, true, none, none⟩ ∧
    deleteUserController demoStore2 "ghost" = (⟨200, true, none, none⟩, demoStore2) := by
  have h := c10_nonexistent_id_responds_200_null demoStore2 "ghost" "ghost" "ghost"
  exact ⟨h.1 (by decide) (by decide), h.2.1 (by decide) (by decide),
    h.2.2 (by decide) (by decide)⟩

end SB
